import Mathlib

/-!
Verification of the gh-brickbreak simulation engine.

This file shallowly embeds the core of the repository in Lean 4:

* constants.py            -> numeric constants below
* models.py               -> RenderContext helpers (grid_to_pixel, get_cell_rect),
                             ContributionDay / ContributionData
* game_entities.py        -> Ball, Paddle, Brick, Explosion and their methods
* physics.py              -> check_wall_collisions, check_paddle_collision,
                             check_brick_collisions
* game_state.py           -> GameState, its constructor and its animate step
* strategies.py           -> the RowStrategy generator, modelled as a pull-based
                             state machine
* animator.py             -> the frame-driver loop of Animator.generate_frames,
                             specialised to FollowBallStrategy

Python floats are idealised as elements of a linear ordered field: the
geometric and collision code is written generically (instantiated at the
rationals for executable witnesses and at the reals inside GameState), while
the two trigonometric computations (Paddle.calculate_bounce_angle and the
initial ball velocity) are embedded over the reals using Real.sin and
Real.cos.  Division by zero follows the Lean convention x / 0 = 0; every
division in the source has a nonzero concrete denominator.
-/

/-! ## Constants (src/gh_brickbreak/constants.py) -/

/-- NUM_WEEKS = 52, contribution graph weeks (columns). -/
def NUM_WEEKS : ℕ := 52

/-- NUM_DAYS = 7, days per week (rows). -/
def NUM_DAYS : ℕ := 7

/-- CELL_SIZE = 14, brick size in pixels. -/
def CELL_SIZE : ℚ := 14

/-- CELL_SPACING = 3, gap between bricks in pixels. -/
def CELL_SPACING : ℚ := 3

/-- PADDING_TOP = 50. -/
def PADDING_TOP : ℚ := 50

/-- PADDING_BOTTOM = 120. -/
def PADDING_BOTTOM : ℚ := 120

/-- PADDING_LEFT = 50. -/
def PADDING_LEFT : ℚ := 50

/-- PADDING_RIGHT = 50. -/
def PADDING_RIGHT : ℚ := 50

/-- CELL_BLOCK_SIZE = CELL_SIZE + CELL_SPACING = 17 pixels per cell. -/
def CELL_BLOCK_SIZE : ℚ := CELL_SIZE + CELL_SPACING

/-- IMAGE_WIDTH = PADDING_LEFT + NUM_WEEKS * CELL_BLOCK_SIZE + PADDING_RIGHT = 984. -/
def IMAGE_WIDTH : ℚ := PADDING_LEFT + NUM_WEEKS * CELL_BLOCK_SIZE + PADDING_RIGHT

/-- IMAGE_HEIGHT = PADDING_TOP + NUM_DAYS * CELL_BLOCK_SIZE + PADDING_BOTTOM = 289. -/
def IMAGE_HEIGHT : ℚ := PADDING_TOP + NUM_DAYS * CELL_BLOCK_SIZE + PADDING_BOTTOM

/-- PADDLE_WIDTH = 60. -/
def PADDLE_WIDTH : ℚ := 60

/-- PADDLE_HEIGHT = 10. -/
def PADDLE_HEIGHT : ℚ := 10

/-- BALL_RADIUS = 4. -/
def BALL_RADIUS : ℚ := 4

/-- BALL_SPEED = 3.0, ball movement speed in pixels per frame. -/
def BALL_SPEED : ℚ := 3

/-- PADDLE_SPEED = 5.0, paddle horizontal speed in pixels per frame. -/
def PADDLE_SPEED : ℚ := 5

/-- BOUNCE_ANGLE_MAX = 60 degrees from vertical. -/
def BOUNCE_ANGLE_MAX : ℚ := 60

/-- PADDLE_ROW = NUM_DAYS + 3 = 10 (grid row of the paddle, below the grid). -/
def PADDLE_ROW : ℕ := NUM_DAYS + 3

/-- BALL_START_ROW = PADDLE_ROW - 1 = 9. -/
def BALL_START_ROW : ℕ := PADDLE_ROW - 1

/-- BALL_START_COL = NUM_WEEKS / 2 = 26.0 (python float division). -/
def BALL_START_COL : ℚ := (NUM_WEEKS : ℚ) / 2

/-- MAX_FRAMES = 5000, safety limit for frame generation. -/
def MAX_FRAMES : ℕ := 5000

/-- COLLISION_EPSILON = 0.1, margin for floating point collision checks. -/
def COLLISION_EPSILON : ℚ := 1 / 10

/-- Default Explosion duration_frames = 10 (game_entities.py, Explosion.__init__). -/
def EXPLOSION_DURATION_FRAMES : ℕ := 10

/-- CONTRIBUTION_LEVELS strength column: level n has strength n (0 for level 0,
which never produces a brick). -/
def levelStrength (l : Fin 5) : ℤ := l.val

/-- CONTRIBUTION_LEVELS color column (level 0 has no color in the source; it is
never read because level-0 cells produce no brick, so we map it to (0,0,0)). -/
def levelColor (l : Fin 5) : ℕ × ℕ × ℕ :=
  match l with
  | 0 => (0, 0, 0)
  | 1 => (14, 68, 41)
  | 2 => (0, 109, 50)
  | 3 => (38, 166, 65)
  | 4 => (57, 211, 83)

/-! ## RenderContext helpers (src/commit_breakout/models.py)

The RenderContext dataclass is always constructed with its default fields,
which are exactly the constants above, so its two coordinate helpers are
embedded as plain functions of those constants. -/

variable {α : Type} [LinearOrderedField α]

/-- RenderContext.grid_to_pixel: center of a grid cell in pixel coordinates. -/
def grid_to_pixel (col row : α) : α × α :=
  let cell_block : α := ((CELL_BLOCK_SIZE : ℚ) : α)
  (((PADDING_LEFT : ℚ) : α) + col * cell_block + ((CELL_SIZE : ℚ) : α) / 2,
   ((PADDING_TOP : ℚ) : α) + row * cell_block + ((CELL_SIZE : ℚ) : α) / 2)

/-- RenderContext.get_cell_rect: pixel rectangle (left, top, right, bottom) of a
grid cell. -/
def get_cell_rect (col row : ℕ) : ℚ × ℚ × ℚ × ℚ :=
  let cell_block : ℚ := CELL_BLOCK_SIZE
  let left : ℚ := PADDING_LEFT + col * cell_block
  let top : ℚ := PADDING_TOP + row * cell_block
  (left, top, left + CELL_SIZE, top + CELL_SIZE)

/-! ## Entities (src/commit_breakout/game_entities.py) -/

/-- Ball: position, velocity and radius (radius is set to BALL_RADIUS by
Ball.__init__ but is an ordinary mutable attribute, hence a field). -/
structure Ball (α : Type) where
  x : α
  y : α
  vx : α
  vy : α
  radius : α
deriving DecidableEq

/-- Ball.__init__ (sets radius = BALL_RADIUS). -/
def Ball.create (x y vx vy : α) : Ball α :=
  { x := x, y := y, vx := vx, vy := vy, radius := ((BALL_RADIUS : ℚ) : α) }

/-- Ball.animate: x += vx, y += vy. -/
def Ball.animate (b : Ball α) : Ball α :=
  { b with x := b.x + b.vx, y := b.y + b.vy }

/-- Ball.get_bounds: bounding box (left, top, right, bottom). -/
def Ball.get_bounds (b : Ball α) : α × α × α × α :=
  (b.x - b.radius, b.y - b.radius, b.x + b.radius, b.y + b.radius)

/-- Paddle: center x, top y, width, height, target x, speed (height and speed
are set from constants by Paddle.__init__). -/
structure Paddle (α : Type) where
  x : α
  y : α
  width : α
  height : α
  target_x : α
  speed : α
deriving DecidableEq

/-- Paddle.__init__ (target_x starts at x; height and speed from constants). -/
def Paddle.create (x y width : α) : Paddle α :=
  { x := x, y := y, width := width, height := ((PADDLE_HEIGHT : ℚ) : α),
    target_x := x, speed := ((PADDLE_SPEED : ℚ) : α) }

/-- Paddle.move_to: set target position. -/
def Paddle.move_to (p : Paddle α) (t : α) : Paddle α :=
  { p with target_x := t }

/-- Paddle.animate: move at most speed toward target, snap when close enough. -/
def Paddle.animate (p : Paddle α) : Paddle α :=
  if |p.x - p.target_x| > p.speed then
    let direction : α := if p.target_x > p.x then 1 else -1
    { p with x := p.x + p.speed * direction }
  else
    { p with x := p.target_x }

/-- Paddle.is_moving: |x - target_x| > COLLISION_EPSILON. -/
def Paddle.is_moving (p : Paddle α) : Bool :=
  |p.x - p.target_x| > ((COLLISION_EPSILON : ℚ) : α)

/-- Paddle.get_bounds: bounding box (left, top, right, bottom). -/
def Paddle.get_bounds (p : Paddle α) : α × α × α × α :=
  let half_width := p.width / 2
  (p.x - half_width, p.y, p.x + half_width, p.y + p.height)

/-- Brick: grid position, strength, color tag, source count, destroyed flag. -/
structure Brick where
  col : ℕ
  row : ℕ
  strength : ℤ
  max_strength : ℤ
  color : ℕ × ℕ × ℕ
  contribution_count : ℕ
  destroyed : Bool
deriving DecidableEq

instance : Inhabited Brick :=
  ⟨{ col := 0, row := 0, strength := 0, max_strength := 0, color := (0, 0, 0),
     contribution_count := 0, destroyed := false }⟩

/-- Brick.__init__ (max_strength = strength, destroyed = False). -/
def Brick.create (col row : ℕ) (strength : ℤ) (color : ℕ × ℕ × ℕ)
    (contribution_count : ℕ) : Brick :=
  { col := col, row := row, strength := strength, max_strength := strength,
    color := color, contribution_count := contribution_count, destroyed := false }

/-- Brick.take_damage: early-return no-op when already destroyed; otherwise
decrement strength and set the destroyed flag when it drops to 0 or below.
Returns the updated brick and the python return value (destroyed by this hit). -/
def Brick.take_damage (b : Brick) (amount : ℤ) : Brick × Bool :=
  if b.destroyed then (b, false)
  else
    let s := b.strength - amount
    if s ≤ 0 then ({ b with strength := s, destroyed := true }, true)
    else ({ b with strength := s }, false)

/-- Explosion: fixed position and lifetime, elapsed-frame counter.  The random
particle descriptors and the max_radius are used only by the renderer and do
not influence the live-collection dynamics, so they are not modelled. -/
structure Explosion (α : Type) where
  x : α
  y : α
  duration : ℕ
  current_frame : ℕ
deriving DecidableEq

/-- Explosion.__init__ (current_frame starts at 0). -/
def Explosion.create (x y : α) (duration : ℕ) : Explosion α :=
  { x := x, y := y, duration := duration, current_frame := 0 }

/-- Explosion.animate: current_frame += 1. -/
def Explosion.animate (e : Explosion α) : Explosion α :=
  { e with current_frame := e.current_frame + 1 }

/-- Explosion.is_finished: current_frame >= duration. -/
def Explosion.is_finished (e : Explosion α) : Bool :=
  e.duration ≤ e.current_frame

/-! ## Collision resolver (src/commit_breakout/physics.py) -/

/-- check_wall_collisions: the four sequential edge checks of physics.py,
returning the updated ball and the pair (hit_horizontal, hit_vertical).
Left, right and top clamp the position and force the velocity sign; the
bottom check only reflects the velocity. -/
def check_wall_collisions (ball : Ball α) : Ball α × Bool × Bool :=
  let s1 :=
    if ball.x - ball.radius ≤ ((PADDING_LEFT : ℚ) : α) then
      ({ ball with x := ((PADDING_LEFT : ℚ) : α) + ball.radius, vx := |ball.vx| },
       true)
    else (ball, false)
  let s2 :=
    if s1.1.x + s1.1.radius ≥ ((IMAGE_WIDTH : ℚ) : α) - ((PADDING_RIGHT : ℚ) : α) then
      ({ s1.1 with x := ((IMAGE_WIDTH : ℚ) : α) - ((PADDING_RIGHT : ℚ) : α) - s1.1.radius,
                   vx := -|s1.1.vx| },
       true)
    else s1
  let s3 :=
    if s2.1.y - s2.1.radius ≤ ((PADDING_TOP : ℚ) : α) then
      ({ s2.1 with y := ((PADDING_TOP : ℚ) : α) + s2.1.radius, vy := |s2.1.vy| },
       true)
    else (s2.1, false)
  let s4 :=
    if s3.1.y + s3.1.radius ≥ ((IMAGE_HEIGHT : ℚ) : α) - 10 then
      ({ s3.1 with vy := -|s3.1.vy| }, true)
    else s3
  (s4.1, s2.2, s4.2)

/-- check_paddle_collision: only while the ball moves downward; on hit the
velocity is recomputed by the bounce function (calculate_bounce_angle in the
source, passed as a parameter because it is trigonometric and only the real
instantiation uses it) and the ball is repositioned flush above the paddle. -/
def check_paddle_collision (bounce : α → α × α) (ball : Ball α) (paddle : Paddle α) :
    Ball α × Bool :=
  if ball.vy ≤ 0 then (ball, false)
  else
    let bb := ball.get_bounds
    let pb := paddle.get_bounds
    if bb.2.2.1 < pb.1 ∨ bb.1 > pb.2.2.1 then (ball, false)
    else if bb.2.2.2 ≥ pb.2.1 ∧ bb.2.1 < pb.2.2.2 then
      let v := bounce ball.x
      ({ ball with vx := v.1, vy := v.2, y := pb.2.1 - ball.radius }, true)
    else (ball, false)

/-- AABB overlap test between the ball bounds and a brick cell rectangle
(the negated disjunction in check_brick_collisions). -/
def brickOverlap (ball : Ball α) (b : Brick) : Bool :=
  let r := get_cell_rect b.col b.row
  ¬(ball.x + ball.radius < ((r.1 : ℚ) : α) ∨
    ball.x - ball.radius > ((r.2.2.1 : ℚ) : α) ∨
    ball.y + ball.radius < ((r.2.1 : ℚ) : α) ∨
    ball.y - ball.radius > ((r.2.2.2 : ℚ) : α))

/-- _determine_collision_side combined with the bounce in check_brick_collisions:
a dominant horizontal penetration flips vx, otherwise vy flips. -/
def brickBounce (ball : Ball α) (b : Brick) : Ball α :=
  let r := get_cell_rect b.col b.row
  let cx : α := (((r.1 : ℚ) : α) + ((r.2.2.1 : ℚ) : α)) / 2
  let cy : α := (((r.2.1 : ℚ) : α) + ((r.2.2.2 : ℚ) : α)) / 2
  let dx := ball.x - cx
  let dy := ball.y - cy
  let half_width : α := (((r.2.2.1 : ℚ) : α) - ((r.1 : ℚ) : α)) / 2
  let half_height : α := (((r.2.2.2 : ℚ) : α) - ((r.2.1 : ℚ) : α)) / 2
  if |dx / half_width| > |dy / half_height| then { ball with vx := -ball.vx }
  else { ball with vy := -ball.vy }

/-- check_brick_collisions: scan the brick list in order, skip destroyed
bricks, resolve against the first AABB overlap and stop.  The index
accumulator records the position of the hit brick in the original list
(the python version returns the brick object itself and mutates the ball). -/
def check_brick_collisions (ball : Ball α) : List Brick → ℕ → Ball α × Option ℕ
  | [], _ => (ball, none)
  | b :: rest, i =>
    if b.destroyed then check_brick_collisions ball rest (i + 1)
    else if brickOverlap ball b then (brickBounce ball b, some i)
    else check_brick_collisions ball rest (i + 1)

/-- Squared speed magnitude of the ball; conservation of the magnitude
sqrt (vx^2 + vy^2) is equivalent to conservation of this square. -/
def Ball.speedSq (b : Ball α) : α := b.vx ^ 2 + b.vy ^ 2

/-! ## Trigonometric pieces (real-valued) -/

/-- math.radians. -/
noncomputable def radians (deg : ℝ) : ℝ := deg * Real.pi / 180

/-- Paddle.calculate_bounce_angle: clamp the normalized offset to [-1, 1],
scale to BOUNCE_ANGLE_MAX degrees, and return
(BALL_SPEED * sin a, -|BALL_SPEED * cos a|). -/
noncomputable def Paddle.calculate_bounce_angle (p : Paddle ℝ) (ball_x : ℝ) : ℝ × ℝ :=
  let offset := ball_x - p.x
  let max_offset := p.width / 2
  let normalized_offset := max (min (offset / max_offset) 1) (-1)
  let angle_degrees := normalized_offset * ((BOUNCE_ANGLE_MAX : ℚ) : ℝ)
  let angle_radians := radians angle_degrees
  (((BALL_SPEED : ℚ) : ℝ) * Real.sin angle_radians,
   -|((BALL_SPEED : ℚ) : ℝ) * Real.cos angle_radians|)

/-! ## Simulation state (src/gh_brickbreak/game_state.py)

The GameState constructor and step are embedded over the reals because the
paddle bounce and the initial ball velocity are trigonometric.  The
contribution_data and render_context attributes are not stored: the render
context always carries the default constants, and the contribution data is
only read during construction. -/

/-- ContributionDay: commit count and GitHub contribution level (0-4).
The level range is the documented ordinal range of the input boundary;
CONTRIBUTION_LEVELS is keyed exactly by 0..4. -/
structure ContributionDay where
  count : ℕ
  level : Fin 5
deriving DecidableEq

/-- ContributionData: the week-by-week grid.  Username, totals and the date
range are display metadata unused by the simulation and are omitted. -/
structure ContributionData where
  weeks : List (List ContributionDay)
deriving DecidableEq

/-- Inner loop of GameState._initialize_bricks: one brick per day with
non-zero level, with the running day index (python enumerate). -/
def bricksFromDays (week_idx : ℕ) : ℕ → List ContributionDay → List Brick
  | _, [] => []
  | day_idx, day :: rest =>
    (if day.level.val = 0 then [] else
      [Brick.create week_idx day_idx (levelStrength day.level) (levelColor day.level)
        day.count]) ++
    bricksFromDays week_idx (day_idx + 1) rest

/-- Outer loop of GameState._initialize_bricks, with the running week index. -/
def bricksFromWeeks : ℕ → List (List ContributionDay) → List Brick
  | _, [] => []
  | week_idx, week :: rest =>
    bricksFromDays week_idx 0 week ++ bricksFromWeeks (week_idx + 1) rest

/-- GameState._initialize_bricks. -/
def initialize_bricks (data : ContributionData) : List Brick :=
  bricksFromWeeks 0 data.weeks

/-- GameState._initialize_ball: ball at the fixed start cell, with velocity
(BALL_SPEED * sin a, BALL_SPEED * cos a) for a = radians(-75).  The source
comments call this launch upward at 15 degrees from vertical. -/
noncomputable def initialize_ball : Ball ℝ :=
  let start := grid_to_pixel ((BALL_START_COL : ℚ) : ℝ) ((BALL_START_ROW : ℕ) : ℝ)
  let angle := radians (-75)
  let vx := ((BALL_SPEED : ℚ) : ℝ) * Real.sin angle
  let vy := ((BALL_SPEED : ℚ) : ℝ) * Real.cos angle
  Ball.create start.1 start.2 vx vy

/-- GameState._initialize_paddle: paddle centered below the grid. -/
noncomputable def initialize_paddle : Paddle ℝ :=
  let start := grid_to_pixel (((NUM_WEEKS : ℚ) : ℝ) / 2) ((PADDLE_ROW : ℕ) : ℝ)
  Paddle.create start.1 start.2 ((PADDLE_WIDTH : ℚ) : ℝ)

/-- GameState aggregate. -/
structure GameState where
  ball : Ball ℝ
  paddle : Paddle ℝ
  bricks : List Brick
  explosions : List (Explosion ℝ)
  frame_count : ℕ
  total_bricks : ℕ
  destroyed_bricks : ℕ

/-- GameState.__init__. -/
noncomputable def GameState.init (data : ContributionData) : GameState :=
  let bricks := initialize_bricks data
  { ball := initialize_ball
    paddle := initialize_paddle
    bricks := bricks
    explosions := []
    frame_count := 0
    total_bricks := bricks.length
    destroyed_bricks := 0 }

/-- Per-frame event record returned by GameState.animate. -/
structure FrameEvents where
  wall_hit : Bool
  paddle_hit : Bool
  brick_hit : Option ℕ
  brick_destroyed : Bool

/-- Explosion phase of GameState.animate: advance every live explosion once,
then drop the finished ones (the source iterates over a copy, animating each
object and removing the finished ones from the live list, which has exactly
this map-then-filter effect). -/
def updateExplosions (l : List (Explosion α)) : List (Explosion α) :=
  (l.map Explosion.animate).filter (fun e => !e.is_finished)

/-- GameState.animate: one frame.  Paddle and ball advance, then wall, paddle
and brick collisions resolve in order; the first hit brick takes one damage,
a destroying hit increments the tally and spawns an explosion at the brick
cell center; explosions advance and finished ones are removed; the frame
counter increments.  Returns the new state and the event record. -/
noncomputable def GameState.animate (s : GameState) : GameState × FrameEvents :=
  let paddle := s.paddle.animate
  let ball0 := s.ball.animate
  let w := check_wall_collisions ball0
  let pc := check_paddle_collision paddle.calculate_bounce_angle w.1 paddle
  let bc := check_brick_collisions pc.1 s.bricks 0
  match bc.2 with
  | none =>
    ({ s with paddle := paddle, ball := bc.1,
              explosions := updateExplosions s.explosions,
              frame_count := s.frame_count + 1 },
     { wall_hit := w.2.1 || w.2.2, paddle_hit := pc.2, brick_hit := none,
       brick_destroyed := false })
  | some i =>
    let hit := s.bricks.getD i default
    let dmg := hit.take_damage 1
    let bricks := s.bricks.set i dmg.1
    let explosions :=
      if dmg.2 then
        let c := grid_to_pixel ((hit.col : ℝ)) ((hit.row : ℝ))
        s.explosions ++ [Explosion.create c.1 c.2 EXPLOSION_DURATION_FRAMES]
      else s.explosions
    ({ s with paddle := paddle, ball := bc.1, bricks := bricks,
              explosions := updateExplosions explosions,
              frame_count := s.frame_count + 1,
              destroyed_bricks := s.destroyed_bricks + (if dmg.2 then 1 else 0) },
     { wall_hit := w.2.1 || w.2.2, paddle_hit := pc.2, brick_hit := some i,
       brick_destroyed := dmg.2 })

/-- GameState.can_take_action: paddle must be stationary. -/
noncomputable def GameState.can_take_action (s : GameState) : Bool :=
  !s.paddle.is_moving

/-- GameState.is_complete: all bricks destroyed. -/
def GameState.is_complete (s : GameState) : Bool :=
  s.bricks.all (fun b => b.destroyed)

/-- GameState.get_active_bricks. -/
def GameState.get_active_bricks (s : GameState) : List Brick :=
  s.bricks.filter (fun b => !b.destroyed)

/-- Iterated frame step (first component of GameState.animate). -/
noncomputable def stepN (n : ℕ) (s : GameState) : GameState :=
  (fun t => (GameState.animate t).1)^[n] s

/-! ## Frame driver (src/commit_breakout/animator.py), FollowBallStrategy

Animator.generate_frames alternates between pulling one action from the
strategy generator and stepping the game until the paddle can take the next
action (bounded by the per-target stuck counter of 500), then checks the
global MAX_FRAMES watchdog.  FollowBallStrategy yields the current ball x
while the game is not complete, so its generator carries no state of its own
and one iteration of the for-loop is a function of the game state alone. -/

/-- Inner while-loop of generate_frames: animate until can_take_action, with
the stuck-frame counter (break once frames_since_action exceeds 500). -/
noncomputable def innerAnimate : ℕ → GameState → GameState
  | fsa, s =>
    if s.can_take_action then s
    else
      let s2 := (s.animate).1
      if 500 < fsa + 1 then s2
      else innerAnimate (fsa + 1) s2
termination_by fsa _ => 501 - fsa

/-- One iteration of the for-loop of generate_frames under FollowBallStrategy:
pull (the generator ends when is_complete, ending the loop), set the paddle
target to the ball x, run the inner loop, then apply the MAX_FRAMES check.
A none result means the for-loop exits (after which the remaining phases of
generate_frames are all bounded). -/
noncomputable def followDriverStep (s : GameState) : Option GameState :=
  if s.is_complete then none
  else
    let s1 := { s with paddle := s.paddle.move_to s.ball.x }
    let s2 := innerAnimate 0 s1
    if MAX_FRAMES ≤ s2.frame_count then none
    else some s2

/-- Iterating the driver loop in the Option monad: none is absorbing and
marks loop exit. -/
noncomputable def followDriverIter (s : GameState) (n : ℕ) : Option GameState :=
  (fun o => Option.bind o followDriverStep)^[n] (some s)

/-! ## Row zig-zag strategy (src/gh_brickbreak/strategies.py, RowStrategy)

RowStrategy.generate_actions is a python generator that the driver resumes
once per pull; between pulls the driver mutates the game state.  It is
modelled as a state machine over indices into game_state.bricks: an
environment (the brick list at the moment of a pull) is supplied to every
pull, matching the fact that the generator reads get_active_bricks and the
brick attributes only when resumed.  The generator state holds the remaining
yields for the current brick, the rest of the current row snapshot and the
remaining row indices. -/

/-- Column of the brick at an index of the environment. -/
def colOf (env : List Brick) (i : ℕ) : ℕ := (env.getD i default).col

/-- Strength of the brick at an index of the environment. -/
def strengthOf (env : List Brick) (i : ℕ) : ℤ := (env.getD i default).strength

/-- Pixel-x target for a grid column: first component of grid_to_pixel(col, 0),
as yielded by RowStrategy. -/
def pixelX (col : ℕ) : ℚ := (grid_to_pixel ((col : ℚ)) 0).1

/-- Indices of the active bricks of one row, in brick-list order
(the list comprehension over get_active_bricks). -/
def rowIndices (env : List Brick) (r : ℕ) : List ℕ :=
  (List.range env.length).filter
    (fun i => !(env.getD i default).destroyed && (env.getD i default).row == r)

/-- Insert an element into a le-sorted list, before the first element it
le-compares to: applied left-to-right this keeps equal keys in their
original order, the stability python sorted guarantees. -/
def insertSorted (le : ℕ → ℕ → Bool) (a : ℕ) : List ℕ → List ℕ
  | [] => [a]
  | b :: l => if le a b then a :: b :: l else b :: insertSorted le a l

/-- Stable insertion sort (structurally recursive counterpart of python
sorted, which is a stable sort). -/
def sortedBy (le : ℕ → ℕ → Bool) : List ℕ → List ℕ
  | [] => []
  | a :: l => insertSorted le a (sortedBy le l)

/-- Row snapshot at row entry: the active bricks of the row sorted by column,
descending when the row index is even (reverse = row_idx % 2 == 0), else
ascending. -/
def rowSnapshot (env : List Brick) (r : ℕ) : List ℕ :=
  if r % 2 = 0 then
    sortedBy (fun a b => decide (colOf env b ≤ colOf env a)) (rowIndices env r)
  else
    sortedBy (fun a b => decide (colOf env a ≤ colOf env b)) (rowIndices env r)

/-- Generator state of RowStrategy between pulls. -/
structure RowGenState where
  pending : Option (ℕ × ℕ)
  bricks : List ℕ
  rows : List ℕ
deriving DecidableEq

/-- Scan the remaining bricks of the current row snapshot for the next one
with a positive strength (range(brick.strength) yields nothing when the
strength read at the first pull for that brick is not positive); returns its
action, the pending yields left for it, and the rest of the snapshot. -/
def pullScanBricks (env : List Brick) : List ℕ → Option (ℚ × (ℕ × ℕ) × List ℕ)
  | [] => none
  | b :: rest =>
    let s := (strengthOf env b).toNat
    if s = 0 then pullScanBricks env rest
    else some (pixelX (colOf env b), (b, s - 1), rest)

/-- Enter the remaining rows one by one, snapshotting each on entry, until a
row yields an action. -/
def pullScanRows (env : List Brick) : List ℕ → Option (ℚ × RowGenState)
  | [] => none
  | r :: rest =>
    match pullScanBricks env (rowSnapshot env r) with
    | some (a, pend, bksRest) =>
      some (a, { pending := some pend, bricks := bksRest, rows := rest })
    | none => pullScanRows env rest

/-- Scan for the next action when no yields are pending for the current
brick: finish the current row snapshot, then enter the next rows. -/
def pullScan (env : List Brick) (bks rows : List ℕ) : Option (ℚ × RowGenState) :=
  match pullScanBricks env bks with
  | some (a, pend, rest) =>
    some (a, { pending := some pend, bricks := rest, rows := rows })
  | none => pullScanRows env rows

/-- One pull of the RowStrategy generator under the environment env (the
brick list at the moment of the pull): pending yields for the current brick
are emitted without re-reading its strength; otherwise the scan advances. -/
def pull (env : List Brick) (g : RowGenState) : Option (ℚ × RowGenState) :=
  match g.pending with
  | some (b, k + 1) =>
    some (pixelX (colOf env b), { g with pending := some (b, k) })
  | _ => pullScan env g.bricks g.rows

/-- Initial generator state: rows from NUM_DAYS-1 down to 0 (range with a
negative step), nothing pending. -/
def rowInitState : RowGenState :=
  { pending := none, bricks := [], rows := (List.range NUM_DAYS).reverse }

/-- Pull n times under a per-pull environment schedule, stopping early if the
generator finishes; returns the yielded actions and the final state. -/
def pullN (envs : ℕ → List Brick) (g : RowGenState) : ℕ → List ℚ × RowGenState
  | 0 => ([], g)
  | n + 1 =>
    match pull (envs 0) g with
    | none => ([], g)
    | some (a, g2) =>
      let t := pullN (fun i => envs (i + 1)) g2 n
      (a :: t.1, t.2)

/-- Pull sequences: PullSeq env g l e means that from state g, pulling under
the constant environment env yields exactly the actions l and ends in
state e. -/
inductive PullSeq (env : List Brick) : RowGenState → List ℚ → RowGenState → Prop
  | nil (g : RowGenState) : PullSeq env g [] g
  | cons {g : RowGenState} {a : ℚ} {g2 : RowGenState} {l : List ℚ} {e : RowGenState} :
      pull env g = some (a, g2) → PullSeq env g2 l e → PullSeq env g (a :: l) e

/-- The generator, driven to exhaustion under the constant environment env,
yields exactly the actions l. -/
def Exhausts (env : List Brick) (g : RowGenState) (l : List ℚ) : Prop :=
  ∃ e, PullSeq env g l e ∧ pull env e = none

/-- Actions contributed by one brick of a row snapshot under a constant
environment: its pixel-x target, strength-many times (clamped to 0 below). -/
def brickActs (env : List Brick) (b : ℕ) : List ℚ :=
  List.replicate (strengthOf env b).toNat (pixelX (colOf env b))

/-- Actions contributed by one row under a constant environment. -/
def rowForm (env : List Brick) (r : ℕ) : List ℚ :=
  (rowSnapshot env r).flatMap (brickActs env)

/-- Closed form of the whole RowStrategy action sequence under a constant
environment: rows from the bottom row upward, within each row the active
bricks sorted ascending by column on odd rows and descending on even rows,
each contributing its strength-many pixel-x targets. -/
def rowClosedForm (env : List Brick) : List ℚ :=
  ((List.range NUM_DAYS).reverse).flatMap (rowForm env)

/-! ## Helper lemmas and theorems for the claims -/

/-- Repeated take_damage, keeping the brick state (the sequence of calls the
simulation makes over time). -/
def applyDamage (b : Brick) (amounts : List ℤ) : Brick :=
  amounts.foldl (fun c a => (Brick.take_damage c a).1) b

lemma take_damage_noop (b : Brick) (a : ℤ) (h : b.destroyed = true) :
    Brick.take_damage b a = (b, false) := by
  unfold Brick.take_damage
  simp [h]

lemma take_damage_strength_le (b : Brick) (a : ℤ) (ha : 0 < a) :
    (Brick.take_damage b a).1.strength ≤ b.strength := by
  simp only [Brick.take_damage]
  split_ifs <;> simp <;> omega

lemma take_damage_destroyed_mono (b : Brick) (a : ℤ) (h : b.destroyed = true) :
    (Brick.take_damage b a).1.destroyed = true := by
  rw [take_damage_noop b a h]
  exact h

lemma applyDamage_nil (b : Brick) : applyDamage b [] = b := rfl

lemma applyDamage_cons (b : Brick) (a : ℤ) (l : List ℤ) :
    applyDamage b (a :: l) = applyDamage (Brick.take_damage b a).1 l := rfl

lemma applyDamage_append (b : Brick) (l1 l2 : List ℤ) :
    applyDamage b (l1 ++ l2) = applyDamage (applyDamage b l1) l2 := by
  unfold applyDamage
  exact List.foldl_append ..

lemma applyDamage_strength_le (b : Brick) (l : List ℤ) (h : ∀ a ∈ l, 0 < a) :
    (applyDamage b l).strength ≤ b.strength := by
  induction l generalizing b with
  | nil => simp [applyDamage_nil]
  | cons a t ih =>
    rw [applyDamage_cons]
    exact le_trans (ih _ (fun x hx => h x (List.mem_cons_of_mem a hx)))
      (take_damage_strength_le b a (h a (List.mem_cons_self a t)))

lemma applyDamage_noop (b : Brick) (l : List ℤ) (h : b.destroyed = true) :
    applyDamage b l = b := by
  induction l with
  | nil => rfl
  | cons a t ih =>
    rw [applyDamage_cons, take_damage_noop b a h]
    exact ih

/-- C4 (confirmed): under any sequence of takeDamage calls with positive
amounts, the strength of a brick is non-increasing over time (between any two
points of the sequence), the destroyed flag never reverts from true to false,
and takeDamage on an already-destroyed brick leaves the brick unchanged and
returns false. -/
theorem c4_brick_damage_invariants (b : Brick) (l1 l2 : List ℤ)
    (hpos : ∀ a ∈ l2, 0 < a) :
    (applyDamage b (l1 ++ l2)).strength ≤ (applyDamage b l1).strength ∧
    ((applyDamage b l1).destroyed = true →
      applyDamage b (l1 ++ l2) = applyDamage b l1) ∧
    (∀ a : ℤ, (applyDamage b l1).destroyed = true →
      Brick.take_damage (applyDamage b l1) a = (applyDamage b l1, false)) ∧
    (∀ a : ℤ, (Brick.take_damage b a).1.destroyed = false → b.destroyed = false) := by
  refine ⟨?_, ?_, ?_, ?_⟩
  · rw [applyDamage_append]
    exact applyDamage_strength_le _ l2 hpos
  · intro hdes
    rw [applyDamage_append]
    exact applyDamage_noop _ l2 hdes
  · intro a hdes
    exact take_damage_noop _ a hdes
  · intro a hafter
    by_contra hb
    rw [Bool.not_eq_false] at hb
    have hmono := take_damage_destroyed_mono b a hb
    rw [hafter] at hmono
    exact Bool.false_ne_true hmono

/-- Witness for C4 at a concrete strength-2 brick and the call sequence
[1, 1, 1]. -/
theorem c4_brick_damage_invariants_witness :
    (applyDamage (Brick.create 0 0 2 (0, 109, 50) 5) ([] ++ [1, 1, 1])).strength ≤
      (applyDamage (Brick.create 0 0 2 (0, 109, 50) 5) []).strength :=
  (c4_brick_damage_invariants (Brick.create 0 0 2 (0, 109, 50) 5) [] [1, 1, 1]
    (by decide)).1

/-- C5 (confirmed): one paddle step moves the position at most speed pixels,
never past the target in the direction of travel, and snaps exactly onto the
target whenever the remaining distance is at most speed.  The target and
speed fields are untouched by the step. -/
theorem c5_paddle_step (p : Paddle α) (hs : 0 ≤ p.speed) :
    |(p.animate).x - p.x| ≤ p.speed ∧
    (p.target_x - (p.animate).x) * (p.target_x - p.x) ≥ 0 ∧
    |p.target_x - (p.animate).x| ≤ |p.target_x - p.x| ∧
    (|p.x - p.target_x| ≤ p.speed → (p.animate).x = p.target_x) := by
  simp only [Paddle.animate]
  split_ifs with h1 h2
  · -- far from target, target to the right
    have hgt : p.target_x - p.x > p.speed := by
      rw [abs_sub_comm, abs_of_pos (by linarith)] at h1
      linarith
    refine ⟨?_, ?_, ?_, ?_⟩
    · simp only [mul_one, add_sub_cancel_left]
      exact le_of_eq (abs_of_nonneg hs)
    · simp only [mul_one]
      have hp1 : p.target_x - (p.x + p.speed) > 0 := by linarith
      have hp2 : p.target_x - p.x > 0 := by linarith
      positivity
    · simp only [mul_one]
      rw [abs_of_pos (by linarith : p.target_x - (p.x + p.speed) > 0),
        abs_of_pos (by linarith : p.target_x - p.x > 0)]
      linarith
    · intro hclose
      exfalso
      exact absurd h1 (not_lt.mpr hclose)
  · -- far from target, target to the left (or equal, excluded by h1)
    have hgt : p.x - p.target_x > p.speed := by
      have hxt : p.target_x ≤ p.x := le_of_not_lt h2
      rw [abs_of_nonneg (by linarith)] at h1
      linarith
    refine ⟨?_, ?_, ?_, ?_⟩
    · simp only [mul_neg_one, add_sub_cancel_left]
      rw [abs_neg, abs_of_nonneg hs]
    · simp only [mul_neg_one]
      have hp1 : p.target_x - (p.x + -p.speed) < 0 := by linarith
      have hp2 : p.target_x - p.x < 0 := by linarith
      nlinarith
    · simp only [mul_neg_one]
      rw [abs_of_neg (by linarith : p.target_x - (p.x + -p.speed) < 0),
        abs_of_neg (by linarith : p.target_x - p.x < 0)]
      linarith
    · intro hclose
      exfalso
      exact absurd h1 (not_lt.mpr hclose)
  · -- within speed of target: snap
    have hle : |p.x - p.target_x| ≤ p.speed := le_of_not_lt h1
    refine ⟨?_, ?_, ?_, fun _ => rfl⟩
    · rw [abs_sub_comm]
      exact hle
    · simp
    · simp [abs_nonneg]

/-- Witness for C5: the scenario of the spec, a paddle at x = 100 with target
103 and speed 5 (the constant paddle speed) is at exactly 103 after one step. -/
theorem c5_paddle_step_witness :
    (0 : ℚ) ≤ (Paddle.mk 100 200 60 10 103 5).speed ∧
    ((Paddle.mk (100 : ℚ) 200 60 10 103 5).animate).x = 103 :=
  ⟨by norm_num,
   (c5_paddle_step (Paddle.mk (100 : ℚ) 200 60 10 103 5) (by norm_num)).2.2.2
     (by norm_num)⟩

lemma updateExplosions_iterate (x y : ℚ) (d n : ℕ) (hd : 0 < d) :
    updateExplosions^[n] [Explosion.create x y d] =
      if n < d then [{ x := x, y := y, duration := d, current_frame := n }] else [] := by
  induction n with
  | zero =>
    rw [if_pos hd]
    rfl
  | succ n ih =>
    rw [Function.iterate_succ_apply', ih]
    by_cases h : n < d
    · rw [if_pos h]
      by_cases h2 : n + 1 < d
      · rw [if_pos h2]
        simp only [updateExplosions, List.map_cons, List.map_nil, Explosion.animate]
        rw [List.filter_cons]
        simp only [Explosion.is_finished]
        have : ¬ d ≤ n + 1 := by omega
        simp [this]
      · rw [if_neg h2]
        simp only [updateExplosions, List.map_cons, List.map_nil, Explosion.animate]
        rw [List.filter_cons]
        simp only [Explosion.is_finished]
        have : d ≤ n + 1 := by omega
        simp [this]
    · rw [if_neg h, if_neg (by omega : ¬ n + 1 < d)]
      simp [updateExplosions]

/-- C8 (corrected): an explosion spawned with lifetime d is advanced once
already during the step that spawns it (GameState.animate appends it before
the explosion-update phase), so after the n-th explosion update following its
creation it is live with its counter equal to n exactly while n < d: it is
present at the end of the creating step and the following d - 2 steps
(d - 1 step-ends in total, not d), its counter increases by exactly one per
frame while alive, and it is removed during the step in which the counter
reaches d. -/
theorem c8_explosion_lifecycle (x y : ℚ) (d n : ℕ) (hd : 0 < d) :
    updateExplosions^[n] [Explosion.create x y d] =
      if n < d then [{ x := x, y := y, duration := d, current_frame := n }] else [] :=
  updateExplosions_iterate x y d n hd

/-- Witness for C8: lifetime 10 (the default), alive with counter 3 after 3
updates. -/
theorem c8_explosion_lifecycle_witness :
    (0 < 10) ∧
    updateExplosions^[3] [Explosion.create (0 : ℚ) 0 10] =
      [{ x := 0, y := 0, duration := 10, current_frame := 3 }] :=
  ⟨by norm_num, by simpa using c8_explosion_lifecycle 0 0 10 3 (by norm_num)⟩

/-- Counterexample for C8 as stated: with the default lifetime 10, the
explosion is already absent after the 10th update following its creation
(it was present only after updates 1..9, i.e. for lifetime - 1 step-ends,
because the spawning step itself advances it once); the claim would keep it
present for the full 10 steps after creation. -/
theorem c8_explosion_absent_at_lifetime :
    EXPLOSION_DURATION_FRAMES = 10 ∧
    updateExplosions^[10] [Explosion.create (0 : ℚ) 0 EXPLOSION_DURATION_FRAMES] = [] := by
  refine ⟨rfl, ?_⟩
  have h := updateExplosions_iterate (0 : ℚ) 0 EXPLOSION_DURATION_FRAMES 10
    (by norm_num [EXPLOSION_DURATION_FRAMES])
  simpa [EXPLOSION_DURATION_FRAMES] using h

/-- C2 (code bug): the initial ball velocity points downward-left, not upward.
The source comments say the launch is upward at a slight angle
(15 degrees from vertical), but the computed velocity is
(3 sin(-75 deg), 3 cos(-75 deg)), whose y component is positive: in screen
coordinates (y growing downward) that moves the ball down, 75 degrees off
vertical, and its x component is negative.  The speed magnitude is the
configured BALL_SPEED.  This refutes the claim that vy is negative. -/
theorem c2_ball_launch_is_downward :
    0 < initialize_ball.vy ∧ initialize_ball.vx < 0 ∧
    initialize_ball.speedSq = ((BALL_SPEED : ℚ) : ℝ) ^ 2 := by
  have hpi := Real.pi_pos
  have hneg : radians (-75) < 0 := by
    unfold radians
    nlinarith
  have hgt : -(Real.pi / 2) < radians (-75) := by
    unfold radians
    nlinarith
  have hgtpi : -Real.pi < radians (-75) := by
    unfold radians
    nlinarith
  have hcos : 0 < Real.cos (radians (-75)) :=
    Real.cos_pos_of_mem_Ioo ⟨hgt, lt_trans hneg (by positivity)⟩
  have hsin : Real.sin (radians (-75)) < 0 :=
    Real.sin_neg_of_neg_of_neg_pi_lt hneg hgtpi
  have hspeed : ((BALL_SPEED : ℚ) : ℝ) = 3 := by norm_num [BALL_SPEED]
  refine ⟨?_, ?_, ?_⟩
  · show 0 < ((BALL_SPEED : ℚ) : ℝ) * Real.cos (radians (-75))
    rw [hspeed]
    positivity
  · show ((BALL_SPEED : ℚ) : ℝ) * Real.sin (radians (-75)) < 0
    rw [hspeed]
    nlinarith
  · show (((BALL_SPEED : ℚ) : ℝ) * Real.sin (radians (-75))) ^ 2 +
      (((BALL_SPEED : ℚ) : ℝ) * Real.cos (radians (-75))) ^ 2 = ((BALL_SPEED : ℚ) : ℝ) ^ 2
    have hpyth := Real.sin_sq_add_cos_sq (radians (-75))
    nlinarith

lemma bricksFromDays_fresh (week_idx : ℕ) :
    ∀ (days : List ContributionDay) (day_idx : ℕ) (b : Brick),
      b ∈ bricksFromDays week_idx day_idx days →
      b.destroyed = false ∧ b.strength = b.max_strength := by
  intro days
  induction days with
  | nil => intro i b hb; cases hb
  | cons d rest ih =>
    intro i b hb
    unfold bricksFromDays at hb
    rw [List.mem_append] at hb
    rcases hb with hb | hb
    · by_cases h0 : d.level.val = 0
      · simp [h0] at hb
      · simp [h0] at hb
        subst hb
        exact ⟨rfl, rfl⟩
    · exact ih (i + 1) b hb

lemma bricksFromWeeks_fresh :
    ∀ (weeks : List (List ContributionDay)) (week_idx : ℕ) (b : Brick),
      b ∈ bricksFromWeeks week_idx weeks →
      b.destroyed = false ∧ b.strength = b.max_strength := by
  intro weeks
  induction weeks with
  | nil => intro i b hb; cases hb
  | cons w rest ih =>
    intro i b hb
    unfold bricksFromWeeks at hb
    rw [List.mem_append] at hb
    rcases hb with hb | hb
    · exact bricksFromDays_fresh i w 0 b hb
    · exact ih (i + 1) b hb

lemma bricksFromDays_length (week_idx : ℕ) :
    ∀ (days : List ContributionDay) (day_idx : ℕ),
      (bricksFromDays week_idx day_idx days).length =
        (days.filter (fun d => !(d.level.val == 0))).length := by
  intro days
  induction days with
  | nil => intro i; rfl
  | cons d rest ih =>
    intro i
    unfold bricksFromDays
    rw [List.length_append, ih (i + 1), List.filter_cons]
    by_cases h0 : d.level.val = 0
    · simp [h0]
    · simp [h0]
      omega

lemma bricksFromWeeks_length :
    ∀ (weeks : List (List ContributionDay)) (week_idx : ℕ),
      (bricksFromWeeks week_idx weeks).length =
        (weeks.map (fun w => (w.filter (fun d => !(d.level.val == 0))).length)).sum := by
  intro weeks
  induction weeks with
  | nil => intro i; rfl
  | cons w rest ih =>
    intro i
    unfold bricksFromWeeks
    rw [List.length_append, ih (i + 1), bricksFromDays_length, List.map_cons, List.sum_cons]

/-- C7 (corrected): GameState construction performs no validation at all: it
accepts every grid, including non-rectangular ones, raising nothing; it
creates exactly one brick per cell with non-zero level, every brick starting
undestroyed at full strength, with the destroyed tally zero and total_bricks
equal to the brick-list length. -/
theorem c7_construction_accepts_everything (data : ContributionData) :
    (GameState.init data).destroyed_bricks = 0 ∧
    (GameState.init data).total_bricks = (GameState.init data).bricks.length ∧
    (GameState.init data).bricks.length =
      (data.weeks.map (fun w => (w.filter (fun d => !(d.level.val == 0))).length)).sum ∧
    (∀ b ∈ (GameState.init data).bricks, b.destroyed = false ∧ b.strength = b.max_strength) := by
  refine ⟨rfl, rfl, ?_, ?_⟩
  · show (initialize_bricks data).length = _
    unfold initialize_bricks
    exact bricksFromWeeks_length data.weeks 0
  · intro b hb
    exact bricksFromWeeks_fresh data.weeks 0 b hb

/-- Non-rectangular contribution grid: the first week has two days, the
second has one. -/
def badGridData : ContributionData :=
  { weeks := [[{ count := 3, level := 1 }, { count := 5, level := 2 }],
              [{ count := 12, level := 3 }]] }

/-- Counterexample for C7 as stated: a malformed (non-rectangular) grid is
accepted by construction without any error, producing an ordinary state with
one brick per non-zero cell; no configuration error is raised anywhere in
GameState.__init__ (the embedded constructor is total). -/
theorem c7_malformed_grid_accepted :
    (badGridData.weeks.map List.length) = [2, 1] ∧
    (GameState.init badGridData).bricks.length = 3 ∧
    (GameState.init badGridData).destroyed_bricks = 0 := by
  refine ⟨rfl, ?_, rfl⟩
  rfl

/-- Ball used in the C3 counterexample: past the bottom line, inside the
other three walls. -/
def c3CexBall : Ball ℚ := { x := 100, y := 280, vx := 1, vy := 2, radius := 4 }

/-- Counterexample for C3 as stated: a ball whose bounding box penetrates the
bottom edge (y + radius = 284 over the line IMAGE_HEIGHT - 10 = 279) has its
velocity reflected but its position NOT clamped to the boundary: the
resolved y is the unchanged 280, not the clamped boundary - radius = 275
that the claim requires for every one of the four edges. -/
theorem c3_bottom_edge_not_clamped :
    c3CexBall.y + c3CexBall.radius ≥ IMAGE_HEIGHT - 10 ∧
    (check_wall_collisions c3CexBall).1.y = 280 ∧
    (check_wall_collisions c3CexBall).1.vy = -2 ∧
    (280 : ℚ) ≠ IMAGE_HEIGHT - 10 - c3CexBall.radius := by
  refine ⟨?_, ?_, ?_, ?_⟩ <;>
    norm_num [c3CexBall, check_wall_collisions, IMAGE_HEIGHT, IMAGE_WIDTH,
      PADDING_TOP, PADDING_BOTTOM, PADDING_LEFT, PADDING_RIGHT, NUM_DAYS,
      NUM_WEEKS, CELL_BLOCK_SIZE, CELL_SIZE, CELL_SPACING]

/-- C3 (corrected): the left, right and top edge checks clamp the ball onto
the boundary and force the velocity component to point back into the field
(the scenario ball with vx = -2 penetrating the left wall is repositioned to
boundary + radius with vx = +2); the bottom edge check, however, only
reflects vy and leaves the position unchanged (it is a safety backstop, not
a clamping wall).  Stated for balls with the BALL_RADIUS radius every ball
gets from Ball.__init__. -/
theorem c3_wall_collision_resolution (b : Ball ℚ) (hr : b.radius = BALL_RADIUS) :
    (b.x - b.radius ≤ PADDING_LEFT →
      (check_wall_collisions b).1.x = PADDING_LEFT + b.radius ∧
      (check_wall_collisions b).1.vx = |b.vx|) ∧
    (¬(b.x - b.radius ≤ PADDING_LEFT) → b.x + b.radius ≥ IMAGE_WIDTH - PADDING_RIGHT →
      (check_wall_collisions b).1.x = IMAGE_WIDTH - PADDING_RIGHT - b.radius ∧
      (check_wall_collisions b).1.vx = -|b.vx|) ∧
    (b.y - b.radius ≤ PADDING_TOP →
      (check_wall_collisions b).1.y = PADDING_TOP + b.radius ∧
      (check_wall_collisions b).1.vy = |b.vy|) ∧
    (¬(b.y - b.radius ≤ PADDING_TOP) → b.y + b.radius ≥ IMAGE_HEIGHT - 10 →
      (check_wall_collisions b).1.y = b.y ∧
      (check_wall_collisions b).1.vy = -|b.vy|) ∧
    (b.x - b.radius ≤ PADDING_LEFT → b.vx = -2 →
      (check_wall_collisions b).1.x = PADDING_LEFT + b.radius ∧
      (check_wall_collisions b).1.vx = 2) := by
  have hr4 : b.radius = 4 := by rw [hr]; norm_num [BALL_RADIUS]
  simp only [check_wall_collisions, Rat.cast_id, hr4]
  norm_num [PADDING_LEFT, PADDING_TOP, PADDING_RIGHT, IMAGE_WIDTH, IMAGE_HEIGHT,
    PADDING_BOTTOM, NUM_WEEKS, NUM_DAYS, CELL_BLOCK_SIZE, CELL_SIZE, CELL_SPACING]
  split_ifs <;> dsimp only at * <;> simp only [hr4] at * <;>
    refine ⟨fun ha => ?_, fun ha hb2 => ?_, fun ha => ?_, fun ha hb2 => ?_,
      fun ha hv => ?_⟩ <;>
    first
      | (exfalso; linarith)
      | (constructor <;> first | rfl | (norm_num; done) | (simp only [hv]; norm_num))

/-- Ball for the C3 witness, penetrating the left wall with vx = -2 and also
past the bottom line. -/
def c3WitnessBallLeft : Ball ℚ := { x := 49, y := 280, vx := -2, vy := 2, radius := 4 }

/-- Ball for the C3 witness, penetrating the right wall and the top wall. -/
def c3WitnessBallTopRight : Ball ℚ := { x := 935, y := 52, vx := 3, vy := -1, radius := 4 }

/-- Witness for C3: concrete balls exercising each discharged hypothesis of
the corrected wall-collision theorem, including the spec scenario
(vx = -2 at the left wall giving boundary + radius and vx = +2). -/
theorem c3_wall_collision_resolution_witness :
    ((check_wall_collisions c3WitnessBallLeft).1.x =
       PADDING_LEFT + c3WitnessBallLeft.radius ∧
     (check_wall_collisions c3WitnessBallLeft).1.vx = 2) ∧
    ((check_wall_collisions c3WitnessBallLeft).1.y = c3WitnessBallLeft.y ∧
     (check_wall_collisions c3WitnessBallLeft).1.vy = -|c3WitnessBallLeft.vy|) ∧
    ((check_wall_collisions c3WitnessBallTopRight).1.x =
       IMAGE_WIDTH - PADDING_RIGHT - c3WitnessBallTopRight.radius ∧
     (check_wall_collisions c3WitnessBallTopRight).1.vx = -|c3WitnessBallTopRight.vx|) ∧
    ((check_wall_collisions c3WitnessBallTopRight).1.y =
       PADDING_TOP + c3WitnessBallTopRight.radius ∧
     (check_wall_collisions c3WitnessBallTopRight).1.vy = |c3WitnessBallTopRight.vy|) := by
  have h1 := c3_wall_collision_resolution c3WitnessBallLeft
    (by norm_num [c3WitnessBallLeft, BALL_RADIUS])
  have h2 := c3_wall_collision_resolution c3WitnessBallTopRight
    (by norm_num [c3WitnessBallTopRight, BALL_RADIUS])
  refine ⟨h1.2.2.2.2 ?_ ?_, h1.2.2.2.1 ?_ ?_, h2.2.1 ?_ ?_, h2.2.2.1 ?_⟩ <;>
    norm_num [c3WitnessBallLeft, c3WitnessBallTopRight, PADDING_LEFT, PADDING_TOP,
      IMAGE_HEIGHT, IMAGE_WIDTH, PADDING_RIGHT, PADDING_BOTTOM, NUM_DAYS, NUM_WEEKS,
      CELL_BLOCK_SIZE, CELL_SIZE, CELL_SPACING]

lemma check_wall_speedSq (b : Ball α) :
    (check_wall_collisions b).1.speedSq = b.speedSq := by
  unfold check_wall_collisions
  dsimp only
  split_ifs <;> simp [Ball.speedSq, neg_sq, sq_abs]

lemma brickBounce_flip (ball : Ball α) (b : Brick) :
    brickBounce ball b = { ball with vx := -ball.vx } ∨
    brickBounce ball b = { ball with vy := -ball.vy } := by
  unfold brickBounce
  dsimp only
  split_ifs
  · exact Or.inl rfl
  · exact Or.inr rfl

lemma check_brick_result (ball : Ball α) :
    ∀ (l : List Brick) (j i : ℕ), (check_brick_collisions ball l j).2 = some i →
      ∃ b, (check_brick_collisions ball l j).1 = brickBounce ball b := by
  intro l
  induction l with
  | nil => intro j i h; simp [check_brick_collisions] at h
  | cons b rest ih =>
    intro j i h
    unfold check_brick_collisions at h ⊢
    split_ifs at h ⊢ with h1 h2
    · exact ih (j + 1) i h
    · exact ⟨b, rfl⟩
    · exact ih (j + 1) i h

lemma check_paddle_collision_spec (bounce : α → α × α) (ball : Ball α)
    (paddle : Paddle α) :
    ((check_paddle_collision bounce ball paddle).2 = false →
      (check_paddle_collision bounce ball paddle).1 = ball) ∧
    ((check_paddle_collision bounce ball paddle).2 = true →
      (check_paddle_collision bounce ball paddle).1.vx = (bounce ball.x).1 ∧
      (check_paddle_collision bounce ball paddle).1.vy = (bounce ball.x).2) := by
  unfold check_paddle_collision
  dsimp only
  split_ifs <;> constructor <;> intro h <;>
    first
      | rfl
      | exact ⟨rfl, rfl⟩
      | simp at h

lemma bounce_angle_speedSq (p : Paddle ℝ) (bx : ℝ) :
    (p.calculate_bounce_angle bx).1 ^ 2 + (p.calculate_bounce_angle bx).2 ^ 2 =
      ((BALL_SPEED : ℚ) : ℝ) ^ 2 := by
  have key : ∀ a : ℝ, (((BALL_SPEED : ℚ) : ℝ) * Real.sin a) ^ 2 +
      (-|((BALL_SPEED : ℚ) : ℝ) * Real.cos a|) ^ 2 = ((BALL_SPEED : ℚ) : ℝ) ^ 2 := by
    intro a
    rw [neg_sq, sq_abs, mul_pow, mul_pow, ← mul_add, Real.sin_sq_add_cos_sq, mul_one]
  unfold Paddle.calculate_bounce_angle
  dsimp only
  exact key _

/-- C6 (confirmed): squared speed magnitude (equivalently the magnitude) is
invariant under the wall resolver; a brick bounce negates exactly one
velocity component, leaving the other and the magnitude unchanged; the
paddle bounce produces a velocity of magnitude exactly BALL_SPEED for every
hit offset, hence leaves the magnitude unchanged whenever the incoming ball
already moves at BALL_SPEED. -/
theorem c6_speed_invariance (bq : Ball ℚ) (l : List Brick) (i : ℕ) (p : Paddle ℝ)
    (br : Ball ℝ)
    (hhit : (check_brick_collisions bq l 0).2 = some i)
    (hmag : br.speedSq = ((BALL_SPEED : ℚ) : ℝ) ^ 2)
    (hpad : (check_paddle_collision p.calculate_bounce_angle br p).2 = true) :
    (check_wall_collisions bq).1.speedSq = bq.speedSq ∧
    (((check_brick_collisions bq l 0).1.vx = -bq.vx ∧
      (check_brick_collisions bq l 0).1.vy = bq.vy) ∨
     ((check_brick_collisions bq l 0).1.vy = -bq.vy ∧
      (check_brick_collisions bq l 0).1.vx = bq.vx)) ∧
    (check_brick_collisions bq l 0).1.speedSq = bq.speedSq ∧
    (p.calculate_bounce_angle br.x).1 ^ 2 + (p.calculate_bounce_angle br.x).2 ^ 2 =
      ((BALL_SPEED : ℚ) : ℝ) ^ 2 ∧
    (check_paddle_collision p.calculate_bounce_angle br p).1.speedSq = br.speedSq := by
  obtain ⟨b, hb⟩ := check_brick_result bq l 0 i hhit
  have hflip := brickBounce_flip bq b
  refine ⟨check_wall_speedSq bq, ?_, ?_, bounce_angle_speedSq p br.x, ?_⟩
  · rw [hb]
    rcases hflip with h | h <;> rw [h]
    · exact Or.inl ⟨rfl, rfl⟩
    · exact Or.inr ⟨rfl, rfl⟩
  · rw [hb]
    rcases hflip with h | h <;> rw [h] <;> simp [Ball.speedSq, neg_sq]
  · have hspec := (check_paddle_collision_spec p.calculate_bounce_angle br p).2 hpad
    rw [Ball.speedSq, hspec.1, hspec.2, bounce_angle_speedSq p br.x, hmag]

/-- Rational ball overlapping the (0,0) brick cell from above, used in the
C6 witness. -/
def c6BrickBall : Ball ℚ := { x := 57, y := 48, vx := 1, vy := 2, radius := 4 }

/-- Strength-1 brick at grid cell (0,0), used in the C6 witness. -/
def c6Brick : Brick := Brick.create 0 0 1 (14, 68, 41) 1

/-- Real ball falling straight down onto the paddle center at speed
BALL_SPEED, used in the C6 witness. -/
def c6RealBall : Ball ℝ := { x := 100, y := 195, vx := 0, vy := 3, radius := 4 }

/-- Paddle centered at x = 100 with the default width, used in the C6
witness. -/
def c6Paddle : Paddle ℝ := ⟨100, 195, 60, 10, 100, 5⟩

/-- Witness for C6: the hypotheses (a brick hit, incoming speed BALL_SPEED, a
paddle hit) hold at concrete inputs, and the wall resolver preserves the
squared speed there. -/
theorem c6_speed_invariance_witness :
    (check_wall_collisions c6BrickBall).1.speedSq = c6BrickBall.speedSq :=
  (c6_speed_invariance c6BrickBall [c6Brick] 0 c6Paddle c6RealBall
    (by norm_num [check_brick_collisions, brickOverlap, get_cell_rect, Brick.create,
      c6Brick, c6BrickBall, PADDING_LEFT, PADDING_TOP, CELL_BLOCK_SIZE, CELL_SIZE,
      CELL_SPACING])
    (by norm_num [Ball.speedSq, c6RealBall, BALL_SPEED])
    (by norm_num [check_paddle_collision, Ball.get_bounds, Paddle.get_bounds,
      c6RealBall, c6Paddle])).1

lemma check_brick_sound (ball : Ball α) :
    ∀ (l : List Brick) (j i : ℕ), (check_brick_collisions ball l j).2 = some i →
      j ≤ i ∧ i - j < l.length ∧ (l.getD (i - j) default).destroyed = false := by
  intro l
  induction l with
  | nil => intro j i h; simp [check_brick_collisions] at h
  | cons b rest ih =>
    intro j i h
    unfold check_brick_collisions at h
    split_ifs at h with h1 h2
    · obtain ⟨hji, hlt, hdes⟩ := ih (j + 1) i h
      have hij : i - j = (i - (j + 1)) + 1 := by omega
      rw [hij, List.getD_cons_succ]
      refine ⟨by omega, ?_, hdes⟩
      simp only [List.length_cons]
      omega
    · simp only [Option.some.injEq] at h
      subst h
      simp only [Nat.sub_self, List.getD_cons_zero]
      refine ⟨le_refl _, by simp, ?_⟩
      simpa using h1
    · obtain ⟨hji, hlt, hdes⟩ := ih (j + 1) i h
      have hij : i - j = (i - (j + 1)) + 1 := by omega
      rw [hij, List.getD_cons_succ]
      refine ⟨by omega, ?_, hdes⟩
      simp only [List.length_cons]
      omega

lemma take_damage_flag (b : Brick) (a : ℤ) (h : b.destroyed = false) :
    (Brick.take_damage b a).2 = (Brick.take_damage b a).1.destroyed := by
  simp only [Brick.take_damage, h]
  split_ifs <;> simp [h]

/-- The invariant of C10: the destroyed tally counts the set flags. -/
def destroyedInv (s : GameState) : Prop :=
  s.destroyed_bricks = s.bricks.countP (fun b => b.destroyed)

lemma animate_preserves_destroyedInv (s : GameState) (h : destroyedInv s) :
    destroyedInv (s.animate).1 := by
  unfold destroyedInv at h ⊢
  unfold GameState.animate
  dsimp only
  split
  · exact h
  · rename_i i heq
    obtain ⟨-, hlt, hdes⟩ := check_brick_sound _ s.bricks 0 i heq
    rw [Nat.sub_zero] at hlt hdes
    dsimp only
    rw [List.countP_set _ _ _ _ hlt, ← List.getD_eq_getElem s.bricks default hlt,
      hdes, ← take_damage_flag _ 1 hdes, h]
    simp only [Bool.false_eq_true, if_false]
    split_ifs <;> omega

/-- C10 (confirmed): in every state reachable from construction by step()
calls, the destroyed-brick tally equals the number of bricks whose destroyed
flag is set; at construction the tally is zero and no brick is destroyed,
and the tally is incremented exactly when the damaged brick transitions to
destroyed (the inductive step of the proof). -/
theorem c10_destroyed_tally (data : ContributionData) (n : ℕ) :
    (stepN n (GameState.init data)).destroyed_bricks =
      (stepN n (GameState.init data)).bricks.countP (fun b => b.destroyed) ∧
    (GameState.init data).destroyed_bricks = 0 ∧
    (GameState.init data).bricks.countP (fun b => b.destroyed) = 0 := by
  have hzero : (GameState.init data).bricks.countP (fun b => b.destroyed) = 0 := by
    rw [List.countP_eq_zero]
    intro b hb
    have := (bricksFromWeeks_fresh data.weeks 0 b hb).1
    simp [this]
  have hinit : destroyedInv (GameState.init data) := by
    unfold destroyedInv
    rw [hzero]
    rfl
  have hiter : ∀ m, destroyedInv (stepN m (GameState.init data)) := by
    intro m
    induction m with
    | zero => exact hinit
    | succ m ih =>
      unfold stepN at ih ⊢
      rw [Function.iterate_succ_apply']
      exact animate_preserves_destroyedInv _ ih
  exact ⟨hiter n, rfl, hzero⟩

/-- Contribution grid with a single level-1 cell, for C1. -/
def c1OneBrickData : ContributionData :=
  { weeks := [[{ count := 1, level := 1 }]] }

lemma c1_ball_paddle_same_x :
    (GameState.init c1OneBrickData).ball.x = (GameState.init c1OneBrickData).paddle.x := by
  show (initialize_ball).x = (initialize_paddle).x
  unfold initialize_ball initialize_paddle Ball.create Paddle.create grid_to_pixel
  dsimp only
  push_cast [BALL_START_COL]
  ring

lemma c1_move_to_is_id :
    (GameState.init c1OneBrickData).paddle.move_to (GameState.init c1OneBrickData).ball.x =
      (GameState.init c1OneBrickData).paddle := by
  unfold Paddle.move_to
  rw [c1_ball_paddle_same_x]
  show { initialize_paddle with target_x := initialize_paddle.x } = initialize_paddle
  rfl

lemma c1_can_take_action :
    (GameState.init c1OneBrickData).can_take_action = true := by
  unfold GameState.can_take_action Paddle.is_moving
  simp only [Bool.not_eq_true', decide_eq_false_iff_not, not_lt]
  have hx : (GameState.init c1OneBrickData).paddle.x -
      (GameState.init c1OneBrickData).paddle.target_x = 0 := by
    show initialize_paddle.x - initialize_paddle.target_x = 0
    have : initialize_paddle.target_x = initialize_paddle.x := rfl
    rw [this, sub_self]
  rw [hx, abs_zero]
  have : (0 : ℚ) ≤ COLLISION_EPSILON := by norm_num [COLLISION_EPSILON]
  exact_mod_cast this

lemma c1_inner_animate_id :
    innerAnimate 0 (GameState.init c1OneBrickData) = GameState.init c1OneBrickData := by
  unfold innerAnimate
  rw [if_pos c1_can_take_action]

lemma c1_not_complete :
    (GameState.init c1OneBrickData).is_complete = false := rfl

lemma followDriverStep_fixed :
    followDriverStep (GameState.init c1OneBrickData) =
      some (GameState.init c1OneBrickData) := by
  unfold followDriverStep
  rw [c1_not_complete]
  simp only [Bool.false_eq_true, if_false]
  have hs1 : { GameState.init c1OneBrickData with
      paddle := (GameState.init c1OneBrickData).paddle.move_to
        (GameState.init c1OneBrickData).ball.x } = GameState.init c1OneBrickData := by
    rw [c1_move_to_is_id]
  rw [hs1, c1_inner_animate_id]
  have : ¬ (MAX_FRAMES ≤ (GameState.init c1OneBrickData).frame_count) := by
    show ¬ (MAX_FRAMES ≤ 0)
    norm_num [MAX_FRAMES]
  rw [if_neg this]

/-- C1 (code bug): the frame-driver loop does NOT terminate for every policy
and grid.  With FollowBallStrategy on any grid with at least one brick, the
ball and the paddle start at the same x (the center column), so every pulled
target is already satisfied: the inner loop runs zero frames, the frame
counter never advances, the MAX_FRAMES watchdog can never trip, and the
for-loop body is a fixed point: iterating the driver any number of times
never exits the loop.  This refutes the bounded-simulation-effort guarantee
the watchdog limits are supposed to give. -/
theorem c1_follow_driver_never_exits (n : ℕ) :
    followDriverIter (GameState.init c1OneBrickData) n =
      some (GameState.init c1OneBrickData) := by
  induction n with
  | zero => rfl
  | succ n ih =>
    unfold followDriverIter at ih ⊢
    rw [Function.iterate_succ_apply', ih, Option.some_bind, followDriverStep_fixed]

/-- Pending component that forces a pull to fall through to the scan:
nothing pending, or zero yields left. -/
def pendInert : Option (ℕ × ℕ) → Prop
  | none => True
  | some (_, k) => k = 0

lemma pull_inert (env : List Brick) (p : Option (ℕ × ℕ)) (hp : pendInert p)
    (bks rows : List ℕ) :
    pull env ⟨p, bks, rows⟩ = pullScan env bks rows := by
  match p with
  | none => rfl
  | some (b, k) =>
    have hk : k = 0 := hp
    subst hk
    rfl

lemma pullSeq_append {env : List Brick} {g : RowGenState} {l1 : List ℚ}
    {g1 : RowGenState} {l2 : List ℚ} {g2 : RowGenState}
    (h1 : PullSeq env g l1 g1) (h2 : PullSeq env g1 l2 g2) :
    PullSeq env g (l1 ++ l2) g2 := by
  induction h1 with
  | nil _ => exact h2
  | cons hp _ ih => exact PullSeq.cons hp (ih h2)

lemma exhausts_prepend {env : List Brick} {g : RowGenState} {l1 : List ℚ}
    {g1 : RowGenState} {l2 : List ℚ} (h1 : PullSeq env g l1 g1)
    (h2 : Exhausts env g1 l2) : Exhausts env g (l1 ++ l2) := by
  obtain ⟨e, hseq, hnone⟩ := h2
  exact ⟨e, pullSeq_append h1 hseq, hnone⟩

lemma exhausts_transfer {env : List Brick} {g1 g2 : RowGenState}
    (hpq : pull env g1 = pull env g2) {l : List ℚ} (h : Exhausts env g2 l) :
    Exhausts env g1 l := by
  obtain ⟨e, hseq, hnone⟩ := h
  cases hseq with
  | nil => exact ⟨g1, PullSeq.nil g1, by rw [hpq]; exact hnone⟩
  | cons hp hrest => exact ⟨e, PullSeq.cons (hpq.trans hp) hrest, hnone⟩

lemma pend_seq (env : List Brick) (b : ℕ) (bks rows : List ℕ) :
    ∀ k, PullSeq env ⟨some (b, k), bks, rows⟩
      (List.replicate k (pixelX (colOf env b))) ⟨some (b, 0), bks, rows⟩ := by
  intro k
  induction k with
  | zero => exact PullSeq.nil _
  | succ k ih => exact PullSeq.cons rfl ih

/-- Actions contributed by the rest of a row snapshot under a constant
environment. -/
def bricksForm (env : List Brick) (bks : List ℕ) : List ℚ :=
  bks.flatMap (brickActs env)

lemma bricks_exhaust (env : List Brick) :
    ∀ (bks : List ℕ) (rows : List ℕ) (K : List ℚ),
      (∀ p, pendInert p → Exhausts env ⟨p, [], rows⟩ K) →
      ∀ (p : Option (ℕ × ℕ)), pendInert p →
        Exhausts env ⟨p, bks, rows⟩ (bricksForm env bks ++ K) := by
  intro bks
  induction bks with
  | nil =>
    intro rows K HK p hp
    rw [show bricksForm env [] = [] from rfl, List.nil_append]
    exact HK p hp
  | cons b rest ih =>
    intro rows K HK p hp
    by_cases hs : (strengthOf env b).toNat = 0
    · have hbk : pullScanBricks env (b :: rest) = pullScanBricks env rest := by
        conv_lhs => rw [pullScanBricks]
        rw [if_pos hs]
      have he : pull env ⟨p, b :: rest, rows⟩ = pull env ⟨p, rest, rows⟩ := by
        rw [pull_inert env p hp, pull_inert env p hp]
        unfold pullScan
        rw [hbk]
      have hshape : bricksForm env (b :: rest) ++ K = bricksForm env rest ++ K := by
        unfold bricksForm
        rw [List.flatMap_cons]
        unfold brickActs
        rw [hs, List.replicate_zero, List.nil_append]
      rw [hshape]
      exact exhausts_transfer he (ih rows K HK p hp)
    · have hbk : pullScanBricks env (b :: rest) =
          some (pixelX (colOf env b), (b, (strengthOf env b).toNat - 1), rest) := by
        conv_lhs => rw [pullScanBricks]
        rw [if_neg hs]
      have hstep : pull env ⟨p, b :: rest, rows⟩ =
          some (pixelX (colOf env b),
            ⟨some (b, (strengthOf env b).toNat - 1), rest, rows⟩) := by
        rw [pull_inert env p hp]
        unfold pullScan
        rw [hbk]
      have hpend := pend_seq env b rest rows ((strengthOf env b).toNat - 1)
      have hrest := ih rows K HK (some (b, 0)) rfl
      have htail := exhausts_prepend hpend hrest
      have hcons := exhausts_prepend (PullSeq.cons hstep (PullSeq.nil _)) htail
      have hshape : bricksForm env (b :: rest) ++ K =
          [pixelX (colOf env b)] ++
            (List.replicate ((strengthOf env b).toNat - 1) (pixelX (colOf env b)) ++
              (bricksForm env rest ++ K)) := by
        unfold bricksForm
        rw [List.flatMap_cons]
        unfold brickActs
        have hs1 : (strengthOf env b).toNat = ((strengthOf env b).toNat - 1) + 1 := by
          omega
        rw [hs1, List.replicate_succ]
        simp [List.append_assoc]
      rw [hshape]
      exact hcons

lemma rows_exhaust (env : List Brick) :
    ∀ (rows : List ℕ) (p : Option (ℕ × ℕ)), pendInert p →
      Exhausts env ⟨p, [], rows⟩ (rows.flatMap (rowForm env)) := by
  intro rows
  induction rows with
  | nil =>
    intro p hp
    exact ⟨⟨p, [], []⟩, PullSeq.nil _, by rw [pull_inert env p hp]; rfl⟩
  | cons r rest ih =>
    intro p hp
    have he : pull env ⟨p, [], r :: rest⟩ = pull env ⟨none, rowSnapshot env r, rest⟩ := by
      rw [pull_inert env p hp, pull_inert env none trivial]
      show pullScanRows env (r :: rest) = pullScan env (rowSnapshot env r) rest
      unfold pullScanRows pullScan
      rfl
    have hb := bricks_exhaust env (rowSnapshot env r) rest (rest.flatMap (rowForm env))
      (fun pp hpp => ih pp hpp) none trivial
    have hshape : (r :: rest).flatMap (rowForm env) =
        bricksForm env (rowSnapshot env r) ++ rest.flatMap (rowForm env) := by
      rw [List.flatMap_cons]
      rfl
    rw [hshape]
    exact exhausts_transfer he hb

lemma pullN_pending (b : ℕ) (bks rows : List ℕ) :
    ∀ (k : ℕ) (envs : ℕ → List Brick),
      (pullN envs ⟨some (b, k), bks, rows⟩ k).2 = ⟨some (b, 0), bks, rows⟩ ∧
      (pullN envs ⟨some (b, k), bks, rows⟩ k).1 =
        (List.range k).map (fun i => pixelX (colOf (envs i) b)) := by
  intro k
  induction k with
  | zero => intro envs; exact ⟨rfl, rfl⟩
  | succ k ih =>
    intro envs
    have h := ih (fun i => envs (i + 1))
    unfold pullN
    dsimp only [pull]
    refine ⟨h.1, ?_⟩
    rw [h.2, List.range_succ_eq_map, List.map_cons, List.map_map]
    rfl

/-- C9 (corrected): under a constant environment the RowStrategy generator,
pulled to exhaustion, yields exactly the closed zig-zag form: rows from the
bottom row (index NUM_DAYS - 1) upward, each row snapshotting its active
bricks sorted by column (ascending on odd rows, descending on even rows),
each brick contributing its pixel-x target strength-many times (clamped at
zero).  Moreover the per-brick yield count is fixed when the brick's turn
begins: once k yields are pending for brick b, the next k pulls yield b's
target whatever happens to the environment in between (the count is not
re-validated), with each target's pixel-x read from the environment of that
pull.  The count is read at the brick's first pull, not at row entry (see
the counterexample). -/
theorem c9_row_strategy_actions :
    (∀ env : List Brick, Exhausts env rowInitState (rowClosedForm env)) ∧
    (∀ (envs : ℕ → List Brick) (b k : ℕ) (bks rows : List ℕ),
      (pullN envs ⟨some (b, k), bks, rows⟩ k).2 = ⟨some (b, 0), bks, rows⟩ ∧
      (pullN envs ⟨some (b, k), bks, rows⟩ k).1 =
        (List.range k).map (fun i => pixelX (colOf (envs i) b))) := by
  constructor
  · intro env
    exact rows_exhaust env ((List.range NUM_DAYS).reverse) none trivial
  · intro envs b k bks rows
    exact pullN_pending b bks rows k envs

/-- Brick 0 of the C9 counterexample: column 0, bottom row, strength 2. -/
def c9Brick0 : Brick := Brick.create 0 6 2 (0, 109, 50) 4

/-- Brick 1 of the C9 counterexample: column 1, bottom row, strength 2. -/
def c9Brick1 : Brick := Brick.create 1 6 2 (0, 109, 50) 4

/-- Environment at row entry: both bricks alive at strength 2. -/
def c9EnvFull : List Brick := [c9Brick0, c9Brick1]

/-- Environment after the driver damaged brick 0 once (possible because the
resolver can hit a neighboring brick while the ball is aimed at brick 1). -/
def c9EnvDamaged : List Brick :=
  [{ col := 0, row := 6, strength := 1, max_strength := 2, color := (0, 109, 50),
     contribution_count := 4, destroyed := false }, c9Brick1]

/-- Environment schedule: the first two pulls see the full row, later pulls
see brick 0 already damaged. -/
def c9Envs : ℕ → List Brick := fun n => if n ≤ 1 then c9EnvFull else c9EnvDamaged

/-- Counterexample for C9 as stated: at row entry (first pull) brick 0 is
active with strength 2 and is part of the snapshot [1, 0] of the bottom
row, so a count computed once at row-entry time would make the generator
yield its pixel-x target twice; but after brick 1's two yields the
environment shows brick 0 at strength 1, and the generator, which reads the
strength only when the brick's turn begins, yields its target exactly once:
the full trace is [pixelX 1, pixelX 1, pixelX 0]. -/
theorem c9_row_entry_count_cex :
    rowSnapshot c9EnvFull 6 = [1, 0] ∧
    strengthOf c9EnvFull 0 = 2 ∧
    (c9Envs 0 = c9EnvFull ∧ c9Envs 2 = c9EnvDamaged) ∧
    (pullN c9Envs rowInitState 10).1 = [pixelX 1, pixelX 1, pixelX 0] ∧
    pixelX 0 ≠ pixelX 1 := by
  refine ⟨rfl, rfl, ⟨rfl, rfl⟩, rfl, ?_⟩
  norm_num [pixelX, grid_to_pixel, PADDING_LEFT, CELL_BLOCK_SIZE, CELL_SIZE,
    CELL_SPACING]
